import Mathlib

/-!
# helloworld example (`example/helloworld/src/main.c`)

```c
extern void print_pybuild_pretty(void);

int main(void) {
	print_pybuild_pretty();
	printf("\n%s from Pybuild v%s!\n", GREETING, MYBUILD_VERSION);
	return 0;
}
```

The process state is the pair of text streams the program can reach.  The
macros `GREETING` and `MYBUILD_VERSION` are supplied by the build and are
parameters here; a C string value is the sequence of characters before its
terminating NUL.  `print_pybuild_pretty` and `printf` are linked in from
outside the file and are parameters of `main` as well; `printf` below is the
C library routine, restricted to the conversions the program uses.
-/

namespace Helloworld

/-- Process state: the contents written so far to the two standard streams. -/
structure World where
  stdout : String
  stderr : String
deriving DecidableEq, Repr

/-- Expansion of a `printf` format: `%s` inserts the next argument verbatim,
`%%` is a literal percent sign, every other character is copied.  A `%s`
without an argument left inserts nothing. -/
def format : List Char → List (List Char) → List Char
  | [], _ => []
  | [c], _ => [c]
  | c :: d :: rest, args =>
    if c = '%' ∧ d = 's' then
      match args with
      | a :: as => a ++ format rest as
      | [] => format rest []
    else if c = '%' ∧ d = '%' then '%' :: format rest args
    else c :: format (d :: rest) args

/-- The text a `printf` call with format `fmt` and string arguments `args` produces. -/
def sprintf (fmt : String) (args : List String) : String :=
  ⟨format fmt.data (args.map String.data)⟩

/-- C library `printf` on a stream that accepts the write: the formatted text
is appended to standard output and the number of characters is returned. -/
def printf (fmt : String) (args : List String) (w : World) : World × Int :=
  ({ w with stdout := w.stdout ++ sprintf fmt args }, (sprintf fmt args).length)

/-- The procedures `main` is linked against. -/
structure Externs where
  print_pybuild_pretty : World → World
  printf : String → List String → World → World × Int

/-- The program: `print_pybuild_pretty();`, then
`printf("\n%s from Pybuild v%s!\n", GREETING, MYBUILD_VERSION);` whose result
is discarded, then `return 0;`.  The result is the final state and the exit
status. -/
def main (GREETING MYBUILD_VERSION : String) (ext : Externs) (w : World) : World × Int :=
  let w1 := ext.print_pybuild_pretty w
  let r := ext.printf "\n%s from Pybuild v%s!\n" [GREETING, MYBUILD_VERSION] w1
  (r.1, 0)

/-- Linking against the C library `printf` and a given banner procedure. -/
def link (banner : World → World) : Externs :=
  ⟨banner, printf⟩

/-- A banner procedure that appends the text `b` to standard output. -/
def appendBanner (b : String) (w : World) : World :=
  { w with stdout := w.stdout ++ b }

/-- Newline-terminated lines of a text; an unterminated rest is a line too. -/
def splitLines : List Char → List (List Char)
  | [] => []
  | c :: cs =>
    if c = '\n' then [] :: splitLines cs
    else
      match splitLines cs with
      | [] => [[c]]
      | l :: ls => (c :: l) :: ls

/-- The lines of a text. -/
def linesOf (s : String) : List String :=
  (splitLines s.data).map String.mk

/-- The last line is `g` and the line immediately before it is empty. -/
def BlankThen (ls : List String) (g : String) : Prop :=
  ls.getLast? = some g ∧ ls.dropLast.getLast? = some ""

instance (ls : List String) (g : String) : Decidable (BlankThen ls g) := by
  unfold BlankThen; infer_instance

/-- The format string of `main` expands to the greeting text. -/
theorem sprintf_greeting (G V : String) :
    sprintf "\n%s from Pybuild v%s!\n" [G, V] = "\n" ++ G ++ " from Pybuild v" ++ V ++ "!\n" := by
  apply String.ext
  simp [sprintf, format]

/-- Final state of `main` when linked against the C library `printf`. -/
theorem main_link (G V : String) (banner : World → World) (w : World) :
    (main G V (link banner) w).1 =
      { banner w with stdout := (banner w).stdout ++ ("\n" ++ G ++ " from Pybuild v" ++ V ++ "!\n") } := by
  simp [main, link, printf, sprintf_greeting]

theorem splitLines_cons_ne (c : Char) (cs : List Char) (hc : c ≠ '\n') :
    splitLines (c :: cs) =
      match splitLines cs with
      | [] => [[c]]
      | l :: ls => (c :: l) :: ls := by
  simp [splitLines, hc]

theorem splitLines_newline_cons (cs : List Char) :
    splitLines ('\n' :: cs) = [] :: splitLines cs := by
  simp [splitLines]

theorem splitLines_snoc_newline_ne_nil (a : List Char) : splitLines (a ++ ['\n']) ≠ [] := by
  induction a with
  | nil => simp [splitLines]
  | cons c a ih =>
    by_cases hc : c = '\n'
    · subst hc
      simp [splitLines_newline_cons]
    · rw [List.cons_append, splitLines_cons_ne c _ hc]
      cases h : splitLines (a ++ ['\n']) with
      | nil => exact absurd h ih
      | cons l ls => simp

theorem splitLines_append_newline (a r : List Char) :
    splitLines (a ++ '\n' :: r) = splitLines (a ++ ['\n']) ++ splitLines r := by
  induction a with
  | nil => simp [splitLines]
  | cons c a ih =>
    by_cases hc : c = '\n'
    · subst hc
      simp [splitLines_newline_cons, ih]
    · rw [List.cons_append, List.cons_append, splitLines_cons_ne c _ hc,
        splitLines_cons_ne c _ hc, ih]
      cases h : splitLines (a ++ ['\n']) with
      | nil => exact absurd h (splitLines_snoc_newline_ne_nil a)
      | cons l ls => simp

/-- A newline-free text followed by a newline is exactly one line. -/
theorem splitLines_single (g : List Char) (hg : '\n' ∉ g) : splitLines (g ++ ['\n']) = [g] := by
  induction g with
  | nil => simp [splitLines]
  | cons c g ih =>
    have hc : c ≠ '\n' := fun h => hg (by simp [h])
    have hg2 : '\n' ∉ g := fun h => hg (by simp [h])
    rw [List.cons_append, splitLines_cons_ne c _ hc, ih hg2]

/-- A text whose last character is not a newline ends, once terminated, in a
non-empty line. -/
theorem splitLines_snoc_ne (a : List Char) (c : Char) (hc : c ≠ '\n') :
    ∃ pre l, splitLines (a ++ [c, '\n']) = pre ++ [l] ∧ l ≠ [] := by
  induction a with
  | nil => exact ⟨[], [c], by simp [splitLines, hc], by simp⟩
  | cons d a ih =>
    obtain ⟨pre, l, h, hl⟩ := ih
    by_cases hd : d = '\n'
    · subst hd
      exact ⟨[] :: pre, l, by simp [splitLines_newline_cons, h], hl⟩
    · rw [List.cons_append, splitLines_cons_ne d _ hd, h]
      cases pre with
      | nil => exact ⟨[], d :: l, by simp, by simp⟩
      | cons p ps => exact ⟨(d :: p) :: ps, l, by simp, hl⟩

/-- The greeting text is a newline, the greeting line, and a newline. -/
theorem greeting_eq (G V : String) :
    "\n" ++ G ++ " from Pybuild v" ++ V ++ "!\n" = "\n" ++ (G ++ " from Pybuild v" ++ V ++ "!") ++ "\n" := by
  apply String.ext
  simp

theorem greeting_line_no_newline (G V : String) (hG : '\n' ∉ G.data) (hV : '\n' ∉ V.data) :
    '\n' ∉ (G ++ " from Pybuild v" ++ V ++ "!").data := by
  simp only [String.data_append, List.mem_append, not_or]
  exact ⟨⟨⟨hG, by decide⟩, hV⟩, by decide⟩

/-- Writing a blank-line separator and one line adds that line after the
lines of the newline-terminated earlier output. -/
theorem linesOf_append_line (a g : String) (hg : '\n' ∉ g.data) :
    linesOf (a ++ ("\n" ++ g ++ "\n")) = linesOf (a ++ "\n") ++ [g] := by
  have h1 : (a ++ ("\n" ++ g ++ "\n")).data = a.data ++ '\n' :: (g.data ++ ['\n']) := by
    simp
  have h2 : (a ++ "\n").data = a.data ++ ['\n'] := by simp
  unfold linesOf
  rw [h1, h2, splitLines_append_newline, splitLines_single g.data hg]
  simp

/-- The newline-terminated text `a ++ "\n"` ends in an empty line exactly
when `a` is empty or itself ends in a newline. -/
theorem splitLines_snoc_newline_last (a : List Char) :
    (splitLines (a ++ ['\n'])).getLast? = some [] ↔ a = [] ∨ a.getLast? = some '\n' := by
  rcases List.eq_nil_or_concat a with rfl | ⟨a2, c, rfl⟩
  · simp [splitLines]
  · rw [List.concat_eq_append]
    by_cases hc : c = '\n'
    · subst hc
      rw [List.append_assoc]
      change (splitLines (a2 ++ '\n' :: ['\n'])).getLast? = some [] ↔ _
      rw [splitLines_append_newline]
      simp [splitLines]
    · obtain ⟨pre, l, h, hl⟩ := splitLines_snoc_ne a2 c hc
      rw [List.append_assoc]
      change (splitLines (a2 ++ [c, '\n'])).getLast? = some [] ↔ _
      rw [h]
      simp [hc, hl]

theorem linesOf_snoc_newline_last (b : String) :
    (linesOf (b ++ "\n")).getLast? = some "" ↔ b = "" ∨ b.data.getLast? = some '\n' := by
  have h2 : (b ++ "\n").data = b.data ++ ['\n'] := by simp
  have h3 : b = "" ↔ b.data = [] := ⟨fun h => by rw [h], fun h => String.ext h⟩
  rw [h3, ← splitLines_snoc_newline_last]
  unfold linesOf
  rw [h2, List.getLast?_map]
  cases (splitLines (b.data ++ ['\n'])).getLast? with
  | none => simp
  | some l =>
    simp only [Option.map_some', Option.some.injEq]
    exact ⟨fun h => congrArg String.data h, fun h => by rw [h]⟩

/-- C1, as stated, fails: with GREETING = "Hello" and VERSION = "1.0" the text
written after the banner is not "\nHello from 1.0!\n", and the last line of
standard output is not "Hello from 1.0!". -/
theorem main_plain_version_text_fails :
    (main "Hello" "1.0" (link (appendBanner "BANNER\n")) ⟨"", ""⟩).1.stdout ≠
        "BANNER\n" ++ ("\n" ++ "Hello" ++ " from " ++ "1.0" ++ "!\n") ∧
      (linesOf (main "Hello" "1.0" (link (appendBanner "BANNER\n")) ⟨"", ""⟩).1.stdout).getLast? ≠
        some "Hello from 1.0!" := by
  decide

/-- C1, amended: for every GREETING and VERSION the text written to standard
output after the banner is "\n" ++ GREETING ++ " from Pybuild v" ++ VERSION ++ "!\n",
and with GREETING = "Hello" and VERSION = "1.0" the last line of standard
output is "Hello from Pybuild v1.0!", whatever the banner wrote. -/
theorem main_text_after_banner (G V : String) (banner : World → World) (w : World) :
    (main G V (link banner) w).1.stdout =
        (banner w).stdout ++ ("\n" ++ G ++ " from Pybuild v" ++ V ++ "!\n") ∧
      (linesOf (main "Hello" "1.0" (link banner) w).1.stdout).getLast? =
        some "Hello from Pybuild v1.0!" := by
  refine ⟨by rw [main_link], ?_⟩
  rw [main_link]
  have h := linesOf_append_line (banner w).stdout "Hello from Pybuild v1.0!" (by decide)
  have e : "\n" ++ "Hello" ++ " from Pybuild v" ++ "1.0" ++ "!\n" =
      "\n" ++ "Hello from Pybuild v1.0!" ++ "\n" := by decide
  simp only [e, h]
  simp

/-- C2: `main` runs the banner procedure once on the initial state and then
performs the one `printf` call on the state the banner left; with a banner
that appends `b`, standard output goes from `s` to `s ++ b ++ greeting text`. -/
theorem main_banner_then_greeting (G V : String) :
    (∀ (ext : Externs) (w : World),
        (main G V ext w).1 =
          (ext.printf "\n%s from Pybuild v%s!\n" [G, V] (ext.print_pybuild_pretty w)).1) ∧
      (∀ s e b : String,
        (main G V (link (appendBanner b)) ⟨s, e⟩).1.stdout =
          s ++ b ++ ("\n" ++ G ++ " from Pybuild v" ++ V ++ "!\n")) := by
  refine ⟨fun _ _ => rfl, fun s e b => ?_⟩
  rw [main_link]
  rfl

/-- C3: `main` returns status 0 for every GREETING and VERSION, every banner
procedure and every outcome of the `printf` call. -/
theorem main_exit_status_zero (G V : String) (ext : Externs) (w : World) :
    (main G V ext w).2 = 0 :=
  rfl

/-- C4: two runs with the same GREETING and VERSION, the same initial standard
output and a banner whose output is a function of the standard-output state
end with the same standard output and the same exit status. -/
theorem main_deterministic (G V : String) (banner : World → World) (w1 w2 : World)
    (hb : ∀ u v : World, u.stdout = v.stdout → (banner u).stdout = (banner v).stdout)
    (hw : w1.stdout = w2.stdout) :
    (main G V (link banner) w1).1.stdout = (main G V (link banner) w2).1.stdout ∧
      (main G V (link banner) w1).2 = (main G V (link banner) w2).2 := by
  refine ⟨?_, rfl⟩
  rw [main_link, main_link]
  simp only [hb w1 w2 hw]

theorem main_deterministic_witness :
    ((∀ u v : World, u.stdout = v.stdout →
          (appendBanner "B" u).stdout = (appendBanner "B" v).stdout) ∧
        (World.mk "x" "e1").stdout = (World.mk "x" "e2").stdout) ∧
      (main "Hello" "1.0" (link (appendBanner "B")) ⟨"x", "e1"⟩).1.stdout =
        (main "Hello" "1.0" (link (appendBanner "B")) ⟨"x", "e2"⟩).1.stdout ∧
      (main "Hello" "1.0" (link (appendBanner "B")) ⟨"x", "e1"⟩).2 =
        (main "Hello" "1.0" (link (appendBanner "B")) ⟨"x", "e2"⟩).2 :=
  ⟨⟨fun u v h => by simp [appendBanner, h], rfl⟩,
    main_deterministic "Hello" "1.0" (appendBanner "B") ⟨"x", "e1"⟩ ⟨"x", "e2"⟩
      (fun u v h => by simp [appendBanner, h]) rfl⟩

/-- C5: when the banner procedure leaves standard error as it found it, so
does `main`. -/
theorem main_stderr_unchanged (G V : String) (banner : World → World) (w : World)
    (hb : ∀ u : World, (banner u).stderr = u.stderr) :
    (main G V (link banner) w).1.stderr = w.stderr := by
  rw [main_link]
  exact hb w

theorem main_stderr_unchanged_witness :
    (∀ u : World, (appendBanner "B" u).stderr = u.stderr) ∧
      (main "Hello" "1.0" (link (appendBanner "B")) ⟨"out", "err"⟩).1.stderr = "err" :=
  ⟨fun _ => rfl,
    main_stderr_unchanged "Hello" "1.0" (appendBanner "B") ⟨"out", "err"⟩ (fun _ => rfl)⟩

/-- C6, as stated, fails: after a banner that does not end in a newline the
line before the greeting line is the banner's last line, not an empty one. -/
theorem main_unterminated_banner_no_blank_line :
    linesOf (main "Hello" "1.0" (link (appendBanner "BANNER")) ⟨"", ""⟩).1.stdout =
        ["BANNER", "Hello from Pybuild v1.0!"] ∧
      ¬ BlankThen (linesOf (main "Hello" "1.0" (link (appendBanner "BANNER")) ⟨"", ""⟩).1.stdout)
        "Hello from Pybuild v1.0!" := by
  decide

/-- C6, amended: for GREETING and VERSION without a newline and every banner
output `b`, the last line of the final standard output is the greeting line,
and the line immediately before it is empty exactly when `b` is empty or ends
in a newline. -/
theorem main_blank_line_before_greeting (G V b e : String)
    (hG : '\n' ∉ G.data) (hV : '\n' ∉ V.data) :
    (linesOf (main G V (link (appendBanner b)) ⟨"", e⟩).1.stdout).getLast? =
        some (G ++ " from Pybuild v" ++ V ++ "!") ∧
      (BlankThen (linesOf (main G V (link (appendBanner b)) ⟨"", e⟩).1.stdout)
          (G ++ " from Pybuild v" ++ V ++ "!") ↔
        b = "" ∨ b.data.getLast? = some '\n') := by
  have hout : (main G V (link (appendBanner b)) ⟨"", e⟩).1.stdout =
      b ++ ("\n" ++ (G ++ " from Pybuild v" ++ V ++ "!") ++ "\n") := by
    rw [main_link, greeting_eq]
    apply String.ext
    simp [appendBanner]
  have hl := linesOf_append_line b _ (greeting_line_no_newline G V hG hV)
  rw [hout, hl]
  refine ⟨by simp, ?_⟩
  unfold BlankThen
  rw [List.dropLast_concat, linesOf_snoc_newline_last]
  simp

theorem main_blank_line_before_greeting_witness :
    ('\n' ∉ "Hello".data ∧ '\n' ∉ "1.0".data) ∧
      (linesOf (main "Hello" "1.0" (link (appendBanner "BANNER\n")) ⟨"", ""⟩).1.stdout).getLast? =
        some ("Hello" ++ " from Pybuild v" ++ "1.0" ++ "!") ∧
      (BlankThen (linesOf (main "Hello" "1.0" (link (appendBanner "BANNER\n")) ⟨"", ""⟩).1.stdout)
          ("Hello" ++ " from Pybuild v" ++ "1.0" ++ "!") ↔
        "BANNER\n" = "" ∨ "BANNER\n".data.getLast? = some '\n') :=
  ⟨⟨by decide, by decide⟩,
    main_blank_line_before_greeting "Hello" "1.0" "BANNER\n" "" (by decide) (by decide)⟩

/-- C7: linked against the C library `printf`, `main` changes the state the
banner left only by appending "\n" ++ GREETING ++ " from Pybuild v" ++
MYBUILD_VERSION ++ "!\n" to standard output; with GREETING = "Hello" and
MYBUILD_VERSION = "1.0" the last line written is "Hello from Pybuild v1.0!". -/
theorem main_writes_pybuild_prefix (G MV : String) (banner : World → World) (w : World) :
    sprintf "\n%s from Pybuild v%s!\n" [G, MV] = "\n" ++ G ++ " from Pybuild v" ++ MV ++ "!\n" ∧
      (main G MV (link banner) w).1 =
        { banner w with
          stdout := (banner w).stdout ++ ("\n" ++ G ++ " from Pybuild v" ++ MV ++ "!\n") } ∧
      (linesOf (sprintf "\n%s from Pybuild v%s!\n" ["Hello", "1.0"])).getLast? =
        some "Hello from Pybuild v1.0!" :=
  ⟨sprintf_greeting G MV, main_link G MV banner w, by decide⟩

/-- C8: for GREETING and MYBUILD_VERSION without a newline, the greeting text
`main` writes has exactly two newlines, its first and its last character,
around one newline-free line, and its length is the two lengths plus 18. -/
theorem greeting_text_shape (G MV : String) (banner : World → World) (w : World)
    (hG : '\n' ∉ G.data) (hV : '\n' ∉ MV.data) :
    (main G MV (link banner) w).1.stdout =
        (banner w).stdout ++ sprintf "\n%s from Pybuild v%s!\n" [G, MV] ∧
      (sprintf "\n%s from Pybuild v%s!\n" [G, MV]).data.count '\n' = 2 ∧
      (sprintf "\n%s from Pybuild v%s!\n" [G, MV]).data.head? = some '\n' ∧
      (sprintf "\n%s from Pybuild v%s!\n" [G, MV]).data.getLast? = some '\n' ∧
      (∃ l : String, '\n' ∉ l.data ∧
        sprintf "\n%s from Pybuild v%s!\n" [G, MV] = "\n" ++ l ++ "\n") ∧
      (sprintf "\n%s from Pybuild v%s!\n" [G, MV]).length = G.length + MV.length + 18 := by
  refine ⟨rfl, ?_, ?_, ?_, ?_, ?_⟩
  · rw [sprintf_greeting]
    simp [List.count_eq_zero.mpr hG, List.count_eq_zero.mpr hV]
  · rw [sprintf_greeting]; simp
  · rw [sprintf_greeting, greeting_eq, String.data_append]
    exact List.getLast?_concat _
  · exact ⟨_, greeting_line_no_newline G MV hG hV, by rw [sprintf_greeting, greeting_eq]⟩
  · rw [sprintf_greeting]
    have h1 : "\n".length = 1 := rfl
    have h2 : " from Pybuild v".length = 15 := rfl
    have h3 : "!\n".length = 2 := rfl
    simp only [String.length_append, h1, h2, h3]
    omega

theorem greeting_text_shape_witness :
    ('\n' ∉ "Hello".data ∧ '\n' ∉ "1.0".data) ∧
      (main "Hello" "1.0" (link (appendBanner "B")) ⟨"", ""⟩).1.stdout =
        (appendBanner "B" ⟨"", ""⟩).stdout ++ sprintf "\n%s from Pybuild v%s!\n" ["Hello", "1.0"] ∧
      (sprintf "\n%s from Pybuild v%s!\n" ["Hello", "1.0"]).data.count '\n' = 2 ∧
      (sprintf "\n%s from Pybuild v%s!\n" ["Hello", "1.0"]).data.head? = some '\n' ∧
      (sprintf "\n%s from Pybuild v%s!\n" ["Hello", "1.0"]).data.getLast? = some '\n' ∧
      (∃ l : String, '\n' ∉ l.data ∧
        sprintf "\n%s from Pybuild v%s!\n" ["Hello", "1.0"] = "\n" ++ l ++ "\n") ∧
      (sprintf "\n%s from Pybuild v%s!\n" ["Hello", "1.0"]).length =
        "Hello".length + "1.0".length + 18 :=
  ⟨⟨by decide, by decide⟩,
    greeting_text_shape "Hello" "1.0" (appendBanner "B") ⟨"", ""⟩ (by decide) (by decide)⟩

end Helloworld
